import Mathlib

/-!
The Xvfb child-process handle of `src/xvfb.cpp`.

A shallow embedding of `src/xvfb.cpp`: the readiness-message parser, the cookie
generator, the `xauth` invocation, and the constructor / `setupEnv` /
`shutdown` / destructor of the `Xvfb` handle.

Conventions of the embedding.

* A C++ `string` is a Lean `String`; one Lean `Char` stands for one C `char`, so
  `size()` is `String.length`.
* `int`, `pid_t` and `ssize_t` values are Lean `Int`s.  The file performs no
  arithmetic on them apart from `'0' + val` with `0 <= val <= 15`; the one place
  where an `int` is produced from unbounded input, `parseString<int>`, yields
  only values between `INT_MIN` and `INT_MAX`.
* Every call into the operating system or the C library takes its answer from an
  explicit "world" record (what the call returns in this run) and appends one
  `Step` to the log of the run.  A run ends in a `Result`: it returns, it is
  aborted by a failed `CHECK`, it blocks for ever in `read`, or (in the forked
  child) its program image is replaced by `execlp`.
-/

namespace Browservice

/-! ## Helpers that live outside `src/xvfb.cpp` -/

/-- Modelled from the spec: `toString` is declared in a header that is not part of
the sources at hand.  The spec calls its result "the decimal display number", so
it is modelled as the usual decimal text of an integer: the digits of the
absolute value, with a leading `-` for a negative value. -/
def toString (value : Int) : String :=
  match value with
  | Int.ofNat m => Nat.repr m
  | Int.negSucc m => "-" ++ Nat.repr (m + 1)

/-- Value of a non-empty run of ASCII decimal digits, most significant first. -/
def digitsValue (ds : List Char) : Option Nat :=
  if ds ≠ [] ∧ ds.all Char.isDigit then
    some (ds.foldl (fun acc c => 10 * acc + (c.toNat - 48)) 0)
  else
    none

/-- The largest value of the C++ type `int` (32 bits). -/
def INT_MAX : Int := 2147483647

/-- The smallest value of the C++ type `int` (32 bits). -/
def INT_MIN : Int := -2147483648

/-- Modelled from the spec: `parseString<int>` is declared in a header that is not
part of the sources at hand.  The spec describes the accepted text as "a decimal
... integer ... with no other content", made of "ASCII decimal digits", and lists
"non-numeric content" and "negative number" as separate deviations.  So the helper
is modelled as reading the whole text as a decimal integer: a non-empty run of
decimal digits, optionally preceded by `-`, and nothing else.  Its result is an
`int`: text whose value lies outside `INT_MIN .. INT_MAX` yields no value. -/
def parseString (str : String) : Option Int :=
  let parsed : Option Int :=
    match str.data with
    | '-' :: ds => (digitsValue ds).map (fun (v : Nat) => -(v : Int))
    | ds => (digitsValue ds).map (fun (v : Nat) => (v : Int))
  match parsed with
  | some v => if INT_MIN ≤ v ∧ v ≤ INT_MAX then some v else none
  | none => none

/-- The constant `EINTR` of `<errno.h>` (its Linux value). -/
def EINTR : Int := 4

/-- The constant `SIGTERM` of `<csignal>`. -/
def SIGTERM : Int := 15

/-! ## `parseDisplay` (lines 12-25) -/

/-- Source: `parseDisplay`.  Empty text or a last character other than the newline
gives no value; otherwise the text without its last character is handed to
`parseString<int>` and the value is kept only when it is `>= 0`.  Every value
returned comes from `parseString<int>` and so lies in the range of `int`. -/
def parseDisplay (displayStr : String) : Option Int :=
  if displayStr.data = [] ∨ displayStr.data.getLast? ≠ some '\n' then
    none
  else
    match parseString (String.mk displayStr.data.dropLast) with
    | some display => if display ≥ 0 then some display else none
    | none => none

/-! ## `generateCookie` (lines 27-40) -/

/-- The body of the `for` loop of `generateCookie`, run `remaining` more times
starting at loop index `i`.  `dist i` is the value `dist(dev)` delivers at the
`i`-th draw. -/
def generateCookieLoop (dist : Nat → Nat) (i : Nat) (remaining : Nat) (cookie : String) : String :=
  match remaining with
  | 0 => cookie
  | r + 1 =>
    let val := dist i
    if val < 10 then
      generateCookieLoop dist (i + 1) r (cookie.push (Char.ofNat (48 + val)))
    else
      generateCookieLoop dist (i + 1) r (cookie.push (Char.ofNat (97 + (val - 10))))

/-- Source: `generateCookie`, with the random device made explicit as the sequence
of values it delivers through `uniform_int_distribution<int>(0, 15)`. -/
def generateCookie (dist : Nat → Nat) : String :=
  generateCookieLoop dist 0 32 ""

/-- The lowercase hexadecimal alphabet, digit `v` at position `v`. -/
def hexAlphabet : List Char := "0123456789abcdef".data

/-! ## Runs: log of steps and result -/

/-- What one call of `read` returned: the bytes it put into the buffer, or `-1`
with `errno` set. -/
inductive ReadResult where
  | data (bytes : String)
  | error (errno : Int)
  deriving DecidableEq

/-- The return value of the `read` call. -/
def ReadResult.readCount : ReadResult → Int
  | ReadResult.data bytes => (bytes.length : Int)
  | ReadResult.error _ => -1

/-- The bytes the `read` call left in the buffer. -/
def ReadResult.buf : ReadResult → String
  | ReadResult.data bytes => bytes
  | ReadResult.error _ => ""

/-- The value of `errno` after the `read` call (only meaningful after a failure). -/
def ReadResult.errno : ReadResult → Int
  | ReadResult.data _ => 0
  | ReadResult.error e => e

/-- One executed statement with an effect outside the function: a call into the
operating system or the C library together with what it returned, or the
assignment of the `display_` or `running_` field. -/
inductive Step where
  | tempDirCreate (path : String)
  | openFile (path : String) (good : Bool)
  | popen (command : String) (mode : String) (started : Bool)
  | fwrite (data : String) (written : Nat)
  | pclose (status : Int)
  | pipe (ret : Int) (readFd : Int) (writeFd : Int)
  | fork (ret : Int)
  | close (fd : Int) (ret : Int)
  | setpgid (pid : Int) (pgid : Int) (ret : Int)
  | execlp (file : String) (args : List String)
  | read (fd : Int) (res : ReadResult)
  | setDisplay (value : Int)
  | setRunning (value : Bool)
  | setenv (name : String) (value : String) (overwrite : Bool) (ret : Int)
  | kill (pid : Int) (sig : Int) (ret : Int)
  | waitpid (pid : Int) (ret : Int)
  | unlink (path : String) (ret : Int)
  deriving DecidableEq

/-- How a run ends. -/
inductive Result (α : Type) where
  | ok (value : α)
  | fatal
  | blocked
  | execed
  deriving DecidableEq

/-- A run: the steps performed, in order, and how the run ended. -/
structure Run (α : Type) where
  log : List Step
  result : Result α
  deriving DecidableEq

/-- Sequencing of runs: the second part runs only when the first returned. -/
def Run.bind {α β : Type} (m : Run α) (f : α → Run β) : Run β :=
  match m.result with
  | Result.ok a => ⟨m.log ++ (f a).log, (f a).result⟩
  | Result.fatal => ⟨m.log, Result.fatal⟩
  | Result.blocked => ⟨m.log, Result.blocked⟩
  | Result.execed => ⟨m.log, Result.execed⟩

instance : Monad Run where
  pure a := ⟨[], Result.ok a⟩
  bind := Run.bind

/-- Record one step. -/
def emit (s : Step) : Run Unit := ⟨[s], Result.ok ()⟩

/-- The run is aborted. -/
def abort {α : Type} : Run α := ⟨[], Result.fatal⟩

/-- Modelled from the spec: the `CHECK` macro comes from a header that is not part
of the sources at hand; the spec calls it a "process-terminating check": when
the condition is false the process is aborted at that point. -/
def CHECK (cond : Bool) : Run Unit :=
  if cond then pure () else abort

/-! ## `addCookieToXAuthFile` (lines 42-57) -/

/-- What the outside world answers during one call of `addCookieToXAuthFile`:
whether `popen` yields a stream, how many bytes the stream accepts, and what
`pclose` returns. -/
structure XauthWorld where
  popenOk : Bool
  accepted : Nat
  pcloseRet : Int
  deriving DecidableEq

/-- The C library call `fwrite(data, 1, size, stream)`: the number of bytes written,
never more than requested. -/
def fwrite (accepted : Nat) (data : String) : Nat :=
  min accepted data.length

/-- Source: `addCookieToXAuthFile`. -/
def addCookieToXAuthFile (path : String) (display : Int) (cookie : String)
    (w : XauthWorld) : Run Unit := do
  let xauthCmd := "xauth -f " ++ path ++ " source -"
  emit (Step.popen xauthCmd "w" w.popenOk)
  if !w.popenOk then
    CHECK false
  let input := "add :" ++ toString display ++ " . " ++ cookie ++ "\n"
  let written := fwrite w.accepted input
  emit (Step.fwrite input written)
  CHECK (written == input.length)
  emit (Step.pclose w.pcloseRet)
  if w.pcloseRet != 0 then
    CHECK false

/-! ## The constructor (lines 61-141) -/

/-- The fields of the `Xvfb` object. -/
structure Xvfb where
  tempDir_ : String
  xAuthPath_ : String
  pid_ : Int
  display_ : Int
  running_ : Bool
  deriving DecidableEq

/-- What the outside world answers during one run of the constructor. -/
structure CtorWorld where
  tempDirPath : String
  fpGood : Bool
  dist0 : Nat → Nat
  xauth0 : XauthWorld
  pipeRet : Int
  readDisplayFd : Int
  writeDisplayFd : Int
  forkRet : Int
  childCloseRet : Int
  setpgidRet : Int
  execOk : Bool
  closeWriteRet : Int
  reads : List ReadResult
  closeReadRet : Int
  dist1 : Nat → Nat
  xauth1 : XauthWorld

/-- The `while(true)` loop of the constructor (lines 114-124), over the results the
successive `read` calls return.  When the results run out before a zero-length
read, the next `read` never returns. -/
def readLoop (readDisplayFd : Int) : List ReadResult → String → Run String
  | [], _ => ⟨[], Result.blocked⟩
  | r :: rest, displayStr => do
    emit (Step.read readDisplayFd r)
    let readCount := r.readCount
    if readCount == 0 then
      pure displayStr
    else if readCount < 0 then do
      CHECK (r.errno == EINTR)
      readLoop readDisplayFd rest displayStr
    else
      readLoop readDisplayFd rest (displayStr ++ r.buf)

/-- The block run by the forked child (lines 85-104).  It never returns to the rest
of the constructor. -/
def childBranch (w : CtorWorld) (xAuthPath : String) : Run Unit := do
  emit (Step.close w.readDisplayFd w.childCloseRet)
  CHECK (w.childCloseRet == 0)
  emit (Step.setpgid 0 0 w.setpgidRet)
  CHECK (w.setpgidRet == 0)
  let writeDisplayFdStr := toString w.writeDisplayFd
  emit (Step.execlp "Xvfb"
    ["Xvfb", "-displayfd", writeDisplayFdStr, "-auth", xAuthPath, "-screen", "0", "640x480x24"])
  if w.execOk then
    (⟨[], Result.execed⟩ : Run Unit)
  else
    CHECK false

/-- Source: `Xvfb::Xvfb`. -/
def Xvfb.ctor (w : CtorWorld) : Run Xvfb := do
  let tempDir := w.tempDirPath
  emit (Step.tempDirCreate tempDir)
  let xAuthPath := tempDir ++ "/.Xauthority"
  emit (Step.openFile xAuthPath w.fpGood)
  CHECK w.fpGood
  addCookieToXAuthFile xAuthPath 0 (generateCookie w.dist0) w.xauth0
  emit (Step.pipe w.pipeRet w.readDisplayFd w.writeDisplayFd)
  CHECK (w.pipeRet == 0)
  let pid := w.forkRet
  emit (Step.fork pid)
  CHECK (pid != -1)
  if pid == 0 then
    childBranch w xAuthPath
  emit (Step.close w.writeDisplayFd w.closeWriteRet)
  CHECK (w.closeWriteRet == 0)
  let displayStr ← readLoop w.readDisplayFd w.reads ""
  emit (Step.close w.readDisplayFd w.closeReadRet)
  CHECK (w.closeReadRet == 0)
  match parseDisplay displayStr with
  | none => abort
  | some display =>
    emit (Step.setDisplay display)
    addCookieToXAuthFile xAuthPath display (generateCookie w.dist1) w.xauth1
    emit (Step.setRunning true)
    pure ⟨tempDir, xAuthPath, pid, display, true⟩

/-! ## `setupEnv`, `shutdown` and the destructor (lines 143-175) -/

/-- The process environment: name/value pairs, the first pair for a name counts. -/
abbrev Environ := List (String × String)

/-- The value of a variable, as `getenv` reports it. -/
def getenv (env : Environ) (name : String) : Option String :=
  (env.find? (fun p => p.1 == name)).map (fun p => p.2)

/-- The environment after a successful `setenv(name, value, 1)`. -/
def setenvOk (env : Environ) (name : String) (value : String) : Environ :=
  (name, value) :: env.filter (fun p => p.1 != name)

/-- What the two `setenv` calls of `setupEnv` return. -/
structure SetenvWorld where
  displayRet : Int
  xauthorityRet : Int
  deriving DecidableEq

/-- Source: `Xvfb::setupEnv`.  The state is the object together with the process
environment. -/
def Xvfb.setupEnv (self : Xvfb) (env : Environ) (w : SetenvWorld) : Run (Xvfb × Environ) := do
  let displayStr := ":" ++ toString self.display_
  emit (Step.setenv "DISPLAY" displayStr true w.displayRet)
  CHECK (w.displayRet == 0)
  let env := setenvOk env "DISPLAY" displayStr
  emit (Step.setenv "XAUTHORITY" self.xAuthPath_ true w.xauthorityRet)
  CHECK (w.xauthorityRet == 0)
  let env := setenvOk env "XAUTHORITY" self.xAuthPath_
  pure (self, env)

/-- What `kill`, `waitpid` and `unlink` return during one call of `shutdown`. -/
structure ShutdownWorld where
  killRet : Int
  waitpidRet : Int
  unlinkRet : Int
  deriving DecidableEq

/-- Source: `Xvfb::shutdown`. -/
def Xvfb.shutdown (self : Xvfb) (w : ShutdownWorld) : Run Xvfb := do
  if !self.running_ then
    pure self
  else
    emit (Step.kill self.pid_ SIGTERM w.killRet)
    emit (Step.waitpid self.pid_ w.waitpidRet)
    CHECK (w.waitpidRet == self.pid_)
    emit (Step.unlink self.xAuthPath_ w.unlinkRet)
    emit (Step.setRunning false)
    pure { self with running_ := false }

/-- Source: `Xvfb::~Xvfb` (the body; the members are released afterwards). -/
def Xvfb.dtor (self : Xvfb) (w : ShutdownWorld) : Run Xvfb := do
  if self.running_ then
    self.shutdown w
  else
    pure self

/-! ## The child process and the authority file, as seen through the calls -/

/-- The part of the operating-system state the lifecycle invariant speaks about. -/
structure OsState where
  childReaped : Bool
  authFileExists : Bool
  lastUnlink : Option Int
  deriving DecidableEq

/-- Effect of one step on the child process and on the authority file of the
handle `self`: a `waitpid` that returns the child's process id reaps the child, an
`unlink` of the authority file that returns `0` removes the file, one that fails
leaves it in place; `lastUnlink` remembers what the latest such `unlink` returned. -/
def observe (self : Xvfb) (os : OsState) : Step → OsState
  | Step.waitpid pid ret =>
    if pid = self.pid_ ∧ ret = pid then { os with childReaped := true } else os
  | Step.unlink path ret =>
    if path = self.xAuthPath_ then
      { os with lastUnlink := some ret, authFileExists := os.authFileExists && (ret != 0) }
    else os
  | _ => os

/-- The handle together with the state of its child process and authority file. -/
structure Sys where
  obj : Xvfb
  os : OsState
  deriving DecidableEq

/-- One call on the handle that returns: the new object, and the operating-system
state after the steps of the call. -/
def Sys.after (s : Sys) (r : Run Xvfb) : Option Sys :=
  match r.result with
  | Result.ok obj => some ⟨obj, r.log.foldl (observe s.obj) s.os⟩
  | _ => none

/-- States reachable from a successfully constructed handle by calls of `setupEnv`
and `shutdown` and by running the destructor.  The constructor performs no
`waitpid` and no `unlink`: when it returns, the child has not been reaped and the
authority file it created exists. -/
inductive Reachable : Sys → Prop where
  | constructed (w : CtorWorld) (obj : Xvfb) (h : (Xvfb.ctor w).result = Result.ok obj) :
      Reachable ⟨obj, ⟨false, true, none⟩⟩
  | setupEnv (s : Sys) (env : Environ) (w : SetenvWorld) (obj : Xvfb) (env2 : Environ)
      (hs : Reachable s) (h : (s.obj.setupEnv env w).result = Result.ok (obj, env2)) :
      Reachable ⟨obj, s.os⟩
  | shutdown (s t : Sys) (w : ShutdownWorld)
      (hs : Reachable s) (h : s.after (s.obj.shutdown w) = some t) : Reachable t
  | dtor (s t : Sys) (w : ShutdownWorld)
      (hs : Reachable s) (h : s.after (s.obj.dtor w) = some t) : Reachable t

/-! ## Definitions used to state the properties -/

/-- Whether a step is a call of `popen`. -/
def Step.isPopen : Step → Bool
  | Step.popen _ _ _ => true
  | _ => false

/-- Whether a step is a call of `fwrite`. -/
def Step.isFwrite : Step → Bool
  | Step.fwrite _ _ => true
  | _ => false

/-- The bytes the successful reads of a sequence of `read` results returned,
concatenated in order. -/
def successfulBytes : List ReadResult → String
  | [] => ""
  | ReadResult.data bytes :: rest => bytes ++ successfulBytes rest
  | ReadResult.error _ :: rest => successfulBytes rest

/-- The steps of a call of `addCookieToXAuthFile` that writes an authorization
entry for `display`: the tool is started on the file, the whole line is written to
it, and it exits with status 0. -/
def entryWritten (path : String) (display : Int) (cookie : String) : List Step :=
  [Step.popen ("xauth -f " ++ path ++ " source -") "w" true,
   Step.fwrite ("add :" ++ toString display ++ " . " ++ cookie ++ "\n")
     ("add :" ++ toString display ++ " . " ++ cookie ++ "\n").length,
   Step.pclose 0]

/-- The characters that mean nothing special to the shell: letters, digits and
`/`, `.`, `_`, `-`. -/
def shellPlain (c : Char) : Bool :=
  c.isAlphanum || c == '/' || c == '.' || c == '_' || c == '-'

/-- Field splitting of the shell, for a command line made of plain characters and
blanks: the words between the blanks, in order.  `cur` holds the characters of
the word being read, last one first. -/
def shellWordsAux : List Char → List Char → List String
  | [], cur => if cur = [] then [] else [String.mk cur.reverse]
  | c :: cs, cur =>
    if c = ' ' then
      (if cur = [] then shellWordsAux cs [] else String.mk cur.reverse :: shellWordsAux cs [])
    else
      shellWordsAux cs (c :: cur)

/-- The argument vector the shell started by `popen` builds from a command line
made of plain characters and blanks: the program name followed by its
arguments. -/
def shellWords (command : String) : List String :=
  shellWordsAux command.data []

/-- Whether a step is a call of `read`. -/
def Step.isRead : Step → Bool
  | Step.read _ _ => true
  | _ => false

/-- A run of the constructor in which every call succeeds: the child gets process id
1234, the first `read` is interrupted, and the display number 12 arrives in two
pieces before the end of the stream. -/
def sampleWorld : CtorWorld :=
  { tempDirPath := "/tmp/t", fpGood := true, dist0 := fun i => i % 16,
    xauth0 := ⟨true, 100, 0⟩, pipeRet := 0, readDisplayFd := 3, writeDisplayFd := 4,
    forkRet := 1234, childCloseRet := 0, setpgidRet := 0, execOk := true,
    closeWriteRet := 0,
    reads := [ReadResult.error 4, ReadResult.data "1", ReadResult.data "2\n", ReadResult.data ""],
    closeReadRet := 0, dist1 := fun i => (i * 7 + 3) % 16, xauth1 := ⟨true, 100, 0⟩ }

/-! # Theorems -/

/-! ## Runs: basic facts -/

theorem bind_def {α β : Type} (m : Run α) (f : α → Run β) : (m >>= f) = Run.bind m f := rfl

theorem pure_def {α : Type} (a : α) : (pure a : Run α) = ⟨[], Result.ok a⟩ := rfl

theorem emit_bind {β : Type} (s : Step) (f : Unit → Run β) :
    Run.bind (emit s) f = ⟨s :: (f ()).log, (f ()).result⟩ := by
  simp [Run.bind, emit]

theorem check_true_bind {β : Type} (f : Unit → Run β) : Run.bind (CHECK true) f = f () := by
  simp [Run.bind, CHECK, pure_def]

theorem check_false_bind {β : Type} (f : Unit → Run β) :
    Run.bind (CHECK false) f = ⟨[], Result.fatal⟩ := by
  simp [Run.bind, CHECK, abort]

theorem fwrite_eq_length_iff (accepted : Nat) (data : String) :
    fwrite accepted data = data.length ↔ ¬ accepted < data.length := by
  unfold fwrite
  omega

/-- The steps of a call of `addCookieToXAuthFile` that returns. -/
theorem addCookie_run (path : String) (display : Int) (cookie : String) (w : XauthWorld) :
    addCookieToXAuthFile path display cookie w =
      if w.popenOk = false then
        ⟨[Step.popen ("xauth -f " ++ path ++ " source -") "w" false], Result.fatal⟩
      else if w.accepted < ("add :" ++ toString display ++ " . " ++ cookie ++ "\n").length then
        ⟨[Step.popen ("xauth -f " ++ path ++ " source -") "w" true,
          Step.fwrite ("add :" ++ toString display ++ " . " ++ cookie ++ "\n") w.accepted],
          Result.fatal⟩
      else if w.pcloseRet ≠ 0 then
        ⟨[Step.popen ("xauth -f " ++ path ++ " source -") "w" true,
          Step.fwrite ("add :" ++ toString display ++ " . " ++ cookie ++ "\n")
            ("add :" ++ toString display ++ " . " ++ cookie ++ "\n").length,
          Step.pclose w.pcloseRet], Result.fatal⟩
      else
        ⟨[Step.popen ("xauth -f " ++ path ++ " source -") "w" true,
          Step.fwrite ("add :" ++ toString display ++ " . " ++ cookie ++ "\n")
            ("add :" ++ toString display ++ " . " ++ cookie ++ "\n").length,
          Step.pclose 0], Result.ok ()⟩ := by
  unfold addCookieToXAuthFile
  simp only [bind_def, emit_bind]
  generalize ("add :" ++ toString display ++ " . " ++ cookie ++ "\n") = input
  cases hp : w.popenOk
  · simp [check_false_bind]
  · by_cases hw : w.accepted < input.length
    · have : fwrite w.accepted input = w.accepted := by unfold fwrite; omega
      have h2 : ¬ (w.accepted = input.length) := by omega
      simp [hw, this, h2, CHECK, abort, pure_def, Run.bind]
    · have : fwrite w.accepted input = input.length := by unfold fwrite; omega
      by_cases hc : w.pcloseRet = 0
      · simp [hw, this, hc, CHECK, abort, pure_def, Run.bind]
      · simp [hw, this, hc, CHECK, abort, pure_def, Run.bind]

theorem getenv_setenvOk_same (env : Environ) (name value : String) :
    getenv (setenvOk env name value) name = some value := by
  simp [getenv, setenvOk]

theorem find_filter_ne (env : Environ) (name other : String) (h : other ≠ name) :
    List.find? (fun p => p.1 == other) (List.filter (fun p => p.1 != name) env) =
      List.find? (fun p => p.1 == other) env := by
  induction env with
  | nil => rfl
  | cons p rest ih =>
    by_cases hp : p.1 = name
    · have h1 : ¬ (p.1 = other) := fun h2 => h (h2.symm.trans hp)
      have h3 : (p.1 != name) = false := by simp [hp]
      have h4 : (p.1 == other) = false := by simpa using h1
      rw [List.filter_cons, h3, List.find?_cons, h4]
      simpa using ih
    · have h3 : (p.1 != name) = true := by simpa using hp
      rw [List.filter_cons, h3]
      simp only [if_true, List.find?_cons]
      rw [ih]

theorem getenv_setenvOk_other (env : Environ) (name value other : String) (h : other ≠ name) :
    getenv (setenvOk env name value) other = getenv env other := by
  have hne : (name == other) = false := by
    simpa using fun h2 => h h2.symm
  simp only [getenv, setenvOk, List.find?_cons, hne]
  rw [find_filter_ne env name other h]

theorem shutdown_run (self : Xvfb) (w : ShutdownWorld) :
    self.shutdown w =
      if self.running_ = false then ⟨[], Result.ok self⟩
      else if w.waitpidRet = self.pid_ then
        ⟨[Step.kill self.pid_ SIGTERM w.killRet, Step.waitpid self.pid_ w.waitpidRet,
          Step.unlink self.xAuthPath_ w.unlinkRet, Step.setRunning false],
         Result.ok { self with running_ := false }⟩
      else
        ⟨[Step.kill self.pid_ SIGTERM w.killRet, Step.waitpid self.pid_ w.waitpidRet],
         Result.fatal⟩ := by
  unfold Xvfb.shutdown
  cases hr : self.running_
  · simp [pure_def]
  · by_cases hw : w.waitpidRet = self.pid_
    · simp [hw, bind_def, pure_def, Run.bind, emit, CHECK, abort]
    · simp [hw, bind_def, pure_def, Run.bind, emit, CHECK, abort]

theorem shellWordsAux_word (word : List Char) (hword : ∀ c ∈ word, c ≠ ' ') :
    ∀ (rest cur : List Char),
      shellWordsAux (word ++ rest) cur = shellWordsAux rest (word.reverse ++ cur) := by
  induction word with
  | nil => intro rest cur; rfl
  | cons c cs ih =>
    intro rest cur
    have hc : c ≠ ' ' := hword c (List.mem_cons_self _ _)
    have hcs : ∀ x ∈ cs, x ≠ ' ' := fun x hx => hword x (List.mem_cons_of_mem _ hx)
    rw [List.cons_append, shellWordsAux, if_neg hc, ih hcs, List.reverse_cons,
      List.append_assoc]
    rfl

theorem shellPlain_ne_blank (c : Char) (h : shellPlain c = true) : c ≠ ' ' := by
  intro hc
  rw [hc] at h
  exact absurd h (by decide)

theorem shellWords_xauth (path : String) (hne : path ≠ "")
    (hplain : ∀ c ∈ path.data, shellPlain c = true) :
    shellWords ("xauth -f " ++ path ++ " source -") = ["xauth", "-f", path, "source", "-"] := by
  have hdata : ("xauth -f " ++ path ++ " source -").data =
      ['x', 'a', 'u', 't', 'h'] ++ (' ' :: (['-', 'f'] ++ (' ' :: (path.data ++
        (' ' :: (['s', 'o', 'u', 'r', 'c', 'e'] ++ (' ' :: (['-'] ++ [])))))))) := by
    show "xauth -f ".data ++ path.data ++ " source -".data = _
    rfl
  have hpne : path.data ≠ [] := by
    intro h
    apply hne
    apply String.ext
    rw [h]
  have hrev : path.data.reverse ++ [] ≠ [] := by
    simpa using hpne
  unfold shellWords
  rw [hdata, shellWordsAux_word _ (by decide), shellWordsAux, if_pos rfl,
    if_neg (by decide), shellWordsAux_word _ (by decide), shellWordsAux, if_pos rfl,
    if_neg (by decide),
    shellWordsAux_word path.data (fun c hc => shellPlain_ne_blank c (hplain c hc)),
    shellWordsAux, if_pos rfl, if_neg hrev, shellWordsAux_word _ (by decide), shellWordsAux,
    if_pos rfl, if_neg (by decide), shellWordsAux_word _ (by decide), shellWordsAux]
  simp

/-- Counterexample for C3: for the file path "/tmp/t/a b/.Xauthority" the one command
line handed to popen is split by the shell at the blank, so the tool receives the
arguments -f, /tmp/t/a, b/.Xauthority, source, - and the file path is not one
of them. -/
theorem addCookieToXAuthFile_path_split_by_shell :
    (addCookieToXAuthFile "/tmp/t/a b/.Xauthority" 0 "c0ffee" ⟨true, 100, 0⟩).log.filter
        Step.isPopen =
      [Step.popen "xauth -f /tmp/t/a b/.Xauthority source -" "w" true] ∧
    shellWords "xauth -f /tmp/t/a b/.Xauthority source -" =
      ["xauth", "-f", "/tmp/t/a", "b/.Xauthority", "source", "-"] ∧
    "/tmp/t/a b/.Xauthority" ∉ shellWords "xauth -f /tmp/t/a b/.Xauthority source -" := by
  decide

/-- C3 (amended): for every file path, display index d >= 0 and cookie, one call of
addCookieToXAuthFile performs exactly one popen, whose command line is
xauth -f PATH source - with the path inserted as it is; once the tool is
started it performs exactly one fwrite, whose data is exactly the line
add :DECIMAL(d) . COOKIE followed by one newline; in every call that returns
the whole of that line was written and the tool exited with status 0; and when
the path is not empty and made only of letters, digits and / . _ - the shell
gives the tool exactly the arguments -f, PATH, source, -, so the file path is
one argument of the invocation. -/
theorem addCookieToXAuthFile_command_and_input (path : String) (d : Nat) (cookie : String)
    (w : XauthWorld) :
    toString (d : Int) = Nat.repr d ∧
    (addCookieToXAuthFile path d cookie w).log.filter Step.isPopen =
      [Step.popen ("xauth -f " ++ path ++ " source -") "w" w.popenOk] ∧
    (addCookieToXAuthFile path d cookie w).log.filter Step.isFwrite =
      (if w.popenOk then
        [Step.fwrite ("add :" ++ Nat.repr d ++ " . " ++ cookie ++ "\n")
          (min w.accepted ("add :" ++ Nat.repr d ++ " . " ++ cookie ++ "\n").length)]
      else []) ∧
    ((addCookieToXAuthFile path d cookie w).result = Result.ok () →
      (addCookieToXAuthFile path d cookie w).log =
        [Step.popen ("xauth -f " ++ path ++ " source -") "w" true,
         Step.fwrite ("add :" ++ Nat.repr d ++ " . " ++ cookie ++ "\n")
           ("add :" ++ Nat.repr d ++ " . " ++ cookie ++ "\n").length,
         Step.pclose 0]) ∧
    ((path ≠ "" ∧ ∀ c ∈ path.data, shellPlain c = true) →
      shellWords ("xauth -f " ++ path ++ " source -") = ["xauth", "-f", path, "source", "-"]) := by
  have hd : toString (d : Int) = Nat.repr d := rfl
  refine ⟨hd, ?_⟩
  rw [← and_assoc, ← and_assoc]
  refine ⟨?_, fun h => shellWords_xauth path h.1 h.2⟩
  rw [and_assoc]
  rw [addCookie_run, hd]
  generalize ("add :" ++ Nat.repr d ++ " . " ++ cookie ++ "\n") = input
  cases hp : w.popenOk
  · simp [Step.isPopen, Step.isFwrite]
  · by_cases hw : w.accepted < input.length
    · have hmin : min w.accepted input.length = w.accepted := by omega
      simp [hw, hmin, Step.isPopen, Step.isFwrite]
    · have hmin : min w.accepted input.length = input.length := by omega
      by_cases hc : w.pcloseRet = 0
      · simp [hw, hc, hmin, Step.isPopen, Step.isFwrite]
      · simp [hw, hc, hmin, Step.isPopen, Step.isFwrite]

/-- Witness for C3 (amended): the authority file path of `sampleWorld`. -/
theorem addCookieToXAuthFile_command_and_input_witness :
    (addCookieToXAuthFile "/tmp/t/.Xauthority" (12 : Nat) "c0ffee" ⟨true, 100, 0⟩).log =
      [Step.popen ("xauth -f " ++ "/tmp/t/.Xauthority" ++ " source -") "w" true,
       Step.fwrite ("add :" ++ Nat.repr 12 ++ " . " ++ "c0ffee" ++ "\n")
         ("add :" ++ Nat.repr 12 ++ " . " ++ "c0ffee" ++ "\n").length,
       Step.pclose 0] ∧
    shellWords ("xauth -f " ++ "/tmp/t/.Xauthority" ++ " source -") =
      ["xauth", "-f", "/tmp/t/.Xauthority", "source", "-"] :=
  have h := addCookieToXAuthFile_command_and_input "/tmp/t/.Xauthority" 12 "c0ffee"
    ⟨true, 100, 0⟩
  ⟨h.2.2.2.1 (by decide), h.2.2.2.2 ⟨by decide, by decide⟩⟩

/-- C4: addCookieToXAuthFile ends in a fatal abort if and only if popen did not
start the tool, or fwrite reported fewer bytes written than the whole input
line, or pclose returned a non-zero status; when the tool starts, takes the whole
line and exits with status 0, the call returns normally; no call ends otherwise. -/
theorem addCookieToXAuthFile_fatal_iff (path : String) (display : Int) (cookie : String)
    (w : XauthWorld) :
    ((addCookieToXAuthFile path display cookie w).result = Result.fatal ↔
      (w.popenOk = false ∨
       fwrite w.accepted ("add :" ++ toString display ++ " . " ++ cookie ++ "\n") <
         ("add :" ++ toString display ++ " . " ++ cookie ++ "\n").length ∨
       w.pcloseRet ≠ 0)) ∧
    ((addCookieToXAuthFile path display cookie w).result = Result.ok () ↔
      (w.popenOk = true ∧
       fwrite w.accepted ("add :" ++ toString display ++ " . " ++ cookie ++ "\n") =
         ("add :" ++ toString display ++ " . " ++ cookie ++ "\n").length ∧
       w.pcloseRet = 0)) := by
  rw [addCookie_run]
  generalize ("add :" ++ toString display ++ " . " ++ cookie ++ "\n") = input
  cases hp : w.popenOk
  · simp
  · by_cases hw : w.accepted < input.length
    · have h1 : fwrite w.accepted input < input.length := by unfold fwrite; omega
      have h2 : fwrite w.accepted input ≠ input.length := by omega
      simp [hw, h1, h2]
    · have h1 : ¬ fwrite w.accepted input < input.length := by unfold fwrite; omega
      have h2 : fwrite w.accepted input = input.length := by unfold fwrite; omega
      by_cases hc : w.pcloseRet = 0
      · simp [hw, h1, h2, hc]
      · simp [hw, h1, h2, hc]

/-- C6: shutdown is idempotent.  For every handle state and whatever the system
calls return, calling shutdown and then shutdown again gives the same run (the
same steps and the same final handle state, or the same fatal abort) as calling
it once; and on a handle with running_ == false shutdown performs no step at all
and returns the handle unchanged. -/
theorem shutdown_idempotent (self : Xvfb) (w1 w2 : ShutdownWorld) :
    (self.shutdown w1 >>= fun s => s.shutdown w2) = self.shutdown w1 ∧
    ({ self with running_ := false } : Xvfb).shutdown w1 =
      ⟨[], Result.ok { self with running_ := false }⟩ := by
  constructor
  · rw [shutdown_run self w1, bind_def]
    cases hr : self.running_
    · simp [Run.bind, shutdown_run, hr]
    · by_cases hw : w1.waitpidRet = self.pid_
      · simp [Run.bind, shutdown_run, hw]
      · simp [Run.bind, shutdown_run, hw]
  · simp [shutdown_run]

/-- C8: on a handle with running_ == true, shutdown ends in a fatal abort if and
only if waitpid does not return the child's process id.  When waitpid returns
it, then whatever kill and unlink return (failure included) the steps are, in
this order, kill with SIGTERM, waitpid, unlink of the authority file, and the
assignment running_ = false, and the call returns the handle with only running_
changed.  When waitpid fails the run stops after kill and waitpid. -/
theorem shutdown_fatal_iff_wait_fails (self : Xvfb) (w : ShutdownWorld)
    (hrun : self.running_ = true) :
    ((self.shutdown w).result = Result.fatal ↔ w.waitpidRet ≠ self.pid_) ∧
    (w.waitpidRet = self.pid_ →
      self.shutdown w =
        ⟨[Step.kill self.pid_ SIGTERM w.killRet, Step.waitpid self.pid_ w.waitpidRet,
          Step.unlink self.xAuthPath_ w.unlinkRet, Step.setRunning false],
         Result.ok { self with running_ := false }⟩) ∧
    (w.waitpidRet ≠ self.pid_ →
      self.shutdown w =
        ⟨[Step.kill self.pid_ SIGTERM w.killRet, Step.waitpid self.pid_ w.waitpidRet],
         Result.fatal⟩) := by
  rw [shutdown_run]
  by_cases hw : w.waitpidRet = self.pid_
  · simp [hrun, hw]
  · simp [hrun, hw]

/-- Witness for C8: kill and unlink both fail, waitpid returns the child. -/
theorem shutdown_fatal_iff_wait_fails_witness :
    (((⟨"/tmp/t", "/tmp/t/.Xauthority", 1234, 12, true⟩ : Xvfb).shutdown ⟨-1, 1234, -1⟩).result
        = Result.fatal ↔ (1234 : Int) ≠ 1234) ∧
    ((⟨"/tmp/t", "/tmp/t/.Xauthority", 1234, 12, true⟩ : Xvfb).shutdown ⟨-1, 1234, -1⟩ =
      ⟨[Step.kill 1234 SIGTERM (-1), Step.waitpid 1234 1234,
        Step.unlink "/tmp/t/.Xauthority" (-1), Step.setRunning false],
       Result.ok ⟨"/tmp/t", "/tmp/t/.Xauthority", 1234, 12, false⟩⟩) :=
  have h := shutdown_fatal_iff_wait_fails ⟨"/tmp/t", "/tmp/t/.Xauthority", 1234, 12, true⟩
    ⟨-1, 1234, -1⟩ rfl
  ⟨h.1, h.2.1 rfl⟩

/-- C9: for every handle (running or not) and every prior environment, when both
setenv calls return 0 setupEnv returns with the handle unchanged, DISPLAY equal
to a colon followed by the decimal display number, XAUTHORITY equal to the
authority file path (whatever these two held before) and every other variable
as it was; when either setenv call fails the run ends in a fatal abort. -/
theorem setupEnv_sets_display_and_xauthority (self : Xvfb) (env : Environ) (w : SetenvWorld) :
    (w.displayRet = 0 ∧ w.xauthorityRet = 0 →
      ∃ env2, (self.setupEnv env w).result = Result.ok (self, env2) ∧
        getenv env2 "DISPLAY" = some (":" ++ toString self.display_) ∧
        getenv env2 "XAUTHORITY" = some self.xAuthPath_ ∧
        ∀ name, name ≠ "DISPLAY" → name ≠ "XAUTHORITY" → getenv env2 name = getenv env name) ∧
    (w.displayRet ≠ 0 ∨ w.xauthorityRet ≠ 0 → (self.setupEnv env w).result = Result.fatal) := by
  unfold Xvfb.setupEnv
  constructor
  · rintro ⟨h1, h2⟩
    refine ⟨setenvOk (setenvOk env "DISPLAY" (":" ++ toString self.display_)) "XAUTHORITY"
      self.xAuthPath_, ?_, ?_, ?_, ?_⟩
    · simp [h1, h2, bind_def, pure_def, Run.bind, emit, CHECK]
    · rw [getenv_setenvOk_other _ _ _ _ (by decide), getenv_setenvOk_same]
    · rw [getenv_setenvOk_same]
    · intro name hd hx
      rw [getenv_setenvOk_other _ _ _ _ hx, getenv_setenvOk_other _ _ _ _ hd]
  · intro h
    by_cases h1 : w.displayRet = 0
    · have h2 : w.xauthorityRet ≠ 0 := by
        rcases h with h | h
        · exact absurd h1 h
        · exact h
      simp [h1, h2, bind_def, pure_def, Run.bind, emit, CHECK, abort]
    · simp [h1, bind_def, pure_def, Run.bind, emit, CHECK, abort]

/-! ## `generateCookie` -/

theorem generateCookieLoop_data (dist : Nat → Nat) (r : Nat) :
    ∀ (i : Nat) (cookie : String),
      (generateCookieLoop dist i r cookie).data =
        cookie.data ++ (List.range r).map (fun k =>
          if dist (i + k) < 10 then Char.ofNat (48 + dist (i + k))
          else Char.ofNat (97 + (dist (i + k) - 10))) := by
  induction r with
  | zero => intro i cookie; simp [generateCookieLoop]
  | succ r ih =>
    intro i cookie
    have hstep : generateCookieLoop dist i (r + 1) cookie =
        generateCookieLoop dist (i + 1) r (cookie.push
          (if dist i < 10 then Char.ofNat (48 + dist i) else Char.ofNat (97 + (dist i - 10)))) := by
      rw [generateCookieLoop]
      by_cases hv : dist i < 10 <;> simp [hv]
    have hshift : ((fun k => if dist (i + k) < 10 then Char.ofNat (48 + dist (i + k))
          else Char.ofNat (97 + (dist (i + k) - 10))) ∘ Nat.succ) =
        (fun k => if dist (i + 1 + k) < 10 then Char.ofNat (48 + dist (i + 1 + k))
          else Char.ofNat (97 + (dist (i + 1 + k) - 10))) := by
      funext k
      have : i + Nat.succ k = i + 1 + k := by omega
      simp [Function.comp, this]
    rw [hstep, ih, String.data_push, List.range_succ_eq_map, List.map_cons, List.map_map, hshift]
    simp

theorem hexChar_eq (v : Nat) (hv : v ≤ 15) :
    some (if v < 10 then Char.ofNat (48 + v) else Char.ofNat (97 + (v - 10))) = hexAlphabet[v]? := by
  interval_cases v <;> rfl

/-- C2: for every sequence of values delivered by the random source, each in
0..15, generateCookie returns a string of exactly 32 characters, every one of
them a lowercase hexadecimal digit, the character at position i being the hex
digit of the i-th drawn value.  The function is total: it returns for every
such sequence. -/
theorem generateCookie_is_32_hex_digits (dist : Nat → Nat) (hdist : ∀ i, i < 32 → dist i ≤ 15) :
    (generateCookie dist).length = 32 ∧
    (∀ c ∈ (generateCookie dist).data, c ∈ "0123456789abcdef".data) ∧
    (∀ i, i < 32 → (generateCookie dist).data[i]? = "0123456789abcdef".data[dist i]?) := by
  have hdata : (generateCookie dist).data = (List.range 32).map (fun k =>
      if dist k < 10 then Char.ofNat (48 + dist k) else Char.ofNat (97 + (dist k - 10))) := by
    have h := generateCookieLoop_data dist 32 0 ""
    simpa [generateCookie] using h
  have hlen : (generateCookie dist).data.length = 32 := by
    rw [hdata]
    simp
  have hpos : ∀ i, i < 32 → (generateCookie dist).data[i]? = "0123456789abcdef".data[dist i]? := by
    intro i hi
    have := hexChar_eq (dist i) (hdist i hi)
    rw [hdata]
    simp only [List.getElem?_map, List.getElem?_range hi, Option.map_some']
    exact this
  refine ⟨hlen, ?_, hpos⟩
  intro c hc
  obtain ⟨i, hi, hget⟩ := List.mem_iff_getElem.mp hc
  have hi32 : i < 32 := by omega
  have h1 := hpos i hi32
  rw [List.getElem?_eq_getElem hi, hget] at h1
  exact List.getElem?_mem h1.symm

/-- Witness for C2: the draws 0, 1, ..., 15, 0, 1, ..., 15. -/
theorem generateCookie_is_32_hex_digits_witness :
    generateCookie (fun i => i % 16) = "0123456789abcdef0123456789abcdef" ∧
    (generateCookie (fun i => i % 16)).length = 32 ∧
    (∀ c ∈ (generateCookie (fun i => i % 16)).data, c ∈ "0123456789abcdef".data) :=
  have h := generateCookie_is_32_hex_digits (fun i => i % 16)
    (fun i _ => Nat.le_of_lt_succ (Nat.mod_lt i (by decide)))
  ⟨by decide, h.1, h.2.1⟩

/-! ## `parseDisplay` -/

/-- The non-negativity check of `parseDisplay`, whatever `parseString<int>` does. -/
theorem parseDisplay_nonneg (s : String) (n : Int) (h : parseDisplay s = some n) : 0 ≤ n := by
  unfold parseDisplay at h
  split at h
  · cases h
  · split at h
    · rename_i display _
      by_cases hd : display ≥ 0
      · rw [if_pos hd] at h
        cases h
        exact hd
      · rw [if_neg hd] at h
        cases h
    · cases h

theorem readLoop_cons (fd : Int) (r : ReadResult) (rest : List ReadResult) (acc : String) :
    readLoop fd (r :: rest) acc =
      if r.readCount = 0 then ⟨[Step.read fd r], Result.ok acc⟩
      else if r.readCount < 0 then
        (if r.errno = EINTR then
          ⟨Step.read fd r :: (readLoop fd rest acc).log, (readLoop fd rest acc).result⟩
        else ⟨[Step.read fd r], Result.fatal⟩)
      else
        ⟨Step.read fd r :: (readLoop fd rest (acc ++ r.buf)).log,
          (readLoop fd rest (acc ++ r.buf)).result⟩ := by
  rw [readLoop]
  simp only [bind_def, emit_bind]
  by_cases h0 : r.readCount = 0
  · simp [h0, pure_def]
  · by_cases hneg : r.readCount < 0
    · by_cases he : r.errno = EINTR
      · simp [h0, hneg, he, CHECK, pure_def, Run.bind]
      · simp [h0, hneg, he, CHECK, abort, Run.bind]
    · simp [h0, hneg]

theorem readLoop_log_isRead (fd : Int) (rs : List ReadResult) :
    ∀ (acc : String), ∀ s ∈ (readLoop fd rs acc).log, s.isRead = true := by
  induction rs with
  | nil => intro acc s hs; simp [readLoop] at hs
  | cons r rest ih =>
    intro acc s hs
    rw [readLoop_cons] at hs
    by_cases h0 : r.readCount = 0
    · simp only [h0, if_true, List.mem_singleton] at hs
      rw [hs]; rfl
    · by_cases hneg : r.readCount < 0
      · by_cases he : r.errno = EINTR
        · simp only [h0, hneg, he, if_true, if_false, List.mem_cons] at hs
          rcases hs with hs | hs
          · rw [hs]; rfl
          · exact ih acc s hs
        · simp only [h0, hneg, he, if_true, if_false, List.mem_singleton] at hs
          rw [hs]; rfl
      · simp only [h0, hneg, if_false, List.mem_cons] at hs
        rcases hs with hs | hs
        · rw [hs]; rfl
        · exact ih _ s hs

theorem readLoop_good (fd : Int) (rs : List ReadResult)
    (hfirst : ∀ r ∈ rs, r.readCount ≠ 0)
    (hintr : ∀ e, ReadResult.error e ∈ rs → e = EINTR) :
    ∀ acc, (readLoop fd (rs ++ [ReadResult.data ""]) acc).result =
      Result.ok (acc ++ successfulBytes rs) := by
  induction rs with
  | nil =>
    intro acc
    rw [List.nil_append, readLoop_cons]
    simp [ReadResult.readCount, successfulBytes]
  | cons r rest ih =>
    intro acc
    have hrest1 : ∀ r ∈ rest, r.readCount ≠ 0 := fun x hx => hfirst x (List.mem_cons_of_mem _ hx)
    have hrest2 : ∀ e, ReadResult.error e ∈ rest → e = EINTR :=
      fun e he => hintr e (List.mem_cons_of_mem _ he)
    have h0 : r.readCount ≠ 0 := hfirst r (List.mem_cons_self _ _)
    rw [List.cons_append, readLoop_cons]
    cases r with
    | data bytes =>
      have hpos : ¬ (ReadResult.data bytes).readCount < 0 := by
        simp [ReadResult.readCount]
      simp only [h0, hpos, if_false]
      rw [ih hrest1 hrest2]
      simp [ReadResult.buf, successfulBytes, String.append_assoc]
    | error e =>
      have he : (ReadResult.error e).errno = EINTR := hintr e (List.mem_cons_self _ _)
      have hneg : (ReadResult.error e).readCount < 0 := by
        simp [ReadResult.readCount]
      simp only [h0, hneg, he, if_true, if_false]
      rw [ih hrest1 hrest2]
      simp [successfulBytes]

theorem readLoop_bad (fd : Int) (rs : List ReadResult)
    (hfirst : ∀ r ∈ rs, r.readCount ≠ 0)
    (hbad : ∃ e, ReadResult.error e ∈ rs ∧ e ≠ EINTR) :
    ∀ acc, (readLoop fd (rs ++ [ReadResult.data ""]) acc).result = Result.fatal := by
  induction rs with
  | nil =>
    obtain ⟨e, he, _⟩ := hbad
    cases he
  | cons r rest ih =>
    intro acc
    have hrest1 : ∀ r ∈ rest, r.readCount ≠ 0 := fun x hx => hfirst x (List.mem_cons_of_mem _ hx)
    have h0 : r.readCount ≠ 0 := hfirst r (List.mem_cons_self _ _)
    rw [List.cons_append, readLoop_cons]
    cases r with
    | data bytes =>
      have hpos : ¬ (ReadResult.data bytes).readCount < 0 := by
        simp [ReadResult.readCount]
      have hbad2 : ∃ e, ReadResult.error e ∈ rest ∧ e ≠ EINTR := by
        obtain ⟨e, he, hne⟩ := hbad
        rcases List.mem_cons.mp he with h | h
        · cases h
        · exact ⟨e, h, hne⟩
      simp only [h0, hpos, if_false]
      exact ih hrest1 hbad2 _
    | error e =>
      have hneg : (ReadResult.error e).readCount < 0 := by
        simp [ReadResult.readCount]
      by_cases he : e = EINTR
      · have hbad2 : ∃ e, ReadResult.error e ∈ rest ∧ e ≠ EINTR := by
          obtain ⟨e2, he2, hne⟩ := hbad
          rcases List.mem_cons.mp he2 with h | h
          · cases h
            exact absurd he hne
          · exact ⟨e2, h, hne⟩
        simp only [h0, hneg, ReadResult.errno, he, if_true, if_false]
        exact ih hrest1 hbad2 _
      · simp only [h0, hneg, ReadResult.errno, he, if_true, if_false]

/-! ## The constructor -/

theorem childBranch_not_ok (w : CtorWorld) (p : String) (u : Unit) :
    (childBranch w p).result ≠ Result.ok u := by
  unfold childBranch
  by_cases h1 : w.childCloseRet = 0
  · by_cases h2 : w.setpgidRet = 0
    · cases h3 : w.execOk <;>
        simp [h1, h2, h3, bind_def, pure_def, Run.bind, emit, CHECK, abort]
    · simp [h1, h2, bind_def, pure_def, Run.bind, emit, CHECK, abort]
  · simp [h1, bind_def, pure_def, Run.bind, emit, CHECK, abort]

theorem addCookie_ok_run (path : String) (display : Int) (cookie : String) (w : XauthWorld)
    (h : (addCookieToXAuthFile path display cookie w).result = Result.ok ()) :
    addCookieToXAuthFile path display cookie w =
      ⟨entryWritten path display cookie, Result.ok ()⟩ := by
  rw [addCookie_run] at h ⊢
  unfold entryWritten
  generalize ("add :" ++ toString display ++ " . " ++ cookie ++ "\n") = input at h ⊢
  cases hp : w.popenOk
  · simp [hp] at h
  · by_cases hw : w.accepted < input.length
    · simp [hp, hw] at h
    · by_cases hc : w.pcloseRet = 0
      · simp [hw, hc]
      · simp [hp, hw, hc] at h

theorem addCookie_result_cases (path : String) (display : Int) (cookie : String) (w : XauthWorld) :
    (addCookieToXAuthFile path display cookie w).result = Result.ok () ∨
    (addCookieToXAuthFile path display cookie w).result = Result.fatal := by
  rw [addCookie_run]
  generalize ("add :" ++ toString display ++ " . " ++ cookie ++ "\n") = input
  cases hp : w.popenOk
  · simp
  · by_cases hw : w.accepted < input.length
    · simp [hw]
    · by_cases hc : w.pcloseRet = 0
      · simp [hw, hc]
      · simp [hw, hc]

theorem bind_result_ok {α β : Type} (m : Run α) (f : α → Run β) (a : α) (h : m.result = Result.ok a) :
    Run.bind m f = ⟨m.log ++ (f a).log, (f a).result⟩ := by
  unfold Run.bind
  rw [h]

theorem bind_result_fatal {α β : Type} (m : Run α) (f : α → Run β) (h : m.result = Result.fatal) :
    Run.bind m f = ⟨m.log, Result.fatal⟩ := by
  unfold Run.bind
  rw [h]

theorem bind_result_blocked {α β : Type} (m : Run α) (f : α → Run β) (h : m.result = Result.blocked) :
    Run.bind m f = ⟨m.log, Result.blocked⟩ := by
  unfold Run.bind
  rw [h]

theorem bind_result_execed {α β : Type} (m : Run α) (f : α → Run β) (h : m.result = Result.execed) :
    Run.bind m f = ⟨m.log, Result.execed⟩ := by
  unfold Run.bind
  rw [h]

/-- A run of the constructor that returns: the answers it received, the object it
built and the steps it performed. -/
theorem ctor_ok_run (w : CtorWorld) (obj : Xvfb) (h : (Xvfb.ctor w).result = Result.ok obj) :
    ∃ (displayStr : String) (readLog : List Step) (display : Int),
      readLoop w.readDisplayFd w.reads "" = ⟨readLog, Result.ok displayStr⟩ ∧
      parseDisplay displayStr = some display ∧
      w.forkRet ≠ 0 ∧ w.forkRet ≠ -1 ∧
      obj = ⟨w.tempDirPath, w.tempDirPath ++ "/.Xauthority", w.forkRet, display, true⟩ ∧
      (Xvfb.ctor w).log =
        [Step.tempDirCreate w.tempDirPath, Step.openFile (w.tempDirPath ++ "/.Xauthority") true] ++
        entryWritten (w.tempDirPath ++ "/.Xauthority") 0 (generateCookie w.dist0) ++
        [Step.pipe 0 w.readDisplayFd w.writeDisplayFd, Step.fork w.forkRet,
         Step.close w.writeDisplayFd 0] ++
        readLog ++
        [Step.close w.readDisplayFd 0, Step.setDisplay display] ++
        entryWritten (w.tempDirPath ++ "/.Xauthority") display (generateCookie w.dist1) ++
        [Step.setRunning true] := by
  unfold Xvfb.ctor at h ⊢
  simp only [bind_def, emit_bind] at h ⊢
  cases h1 : w.fpGood
  · simp [h1, CHECK, abort, Run.bind] at h
  simp only [h1, check_true_bind] at h ⊢
  rcases addCookie_result_cases (w.tempDirPath ++ "/.Xauthority") 0 (generateCookie w.dist0)
    w.xauth0 with h2 | h2
  swap
  · rw [bind_result_fatal _ _ h2] at h
    simp at h
  rw [bind_result_ok _ _ () h2, addCookie_ok_run _ _ _ _ h2] at h ⊢
  by_cases h3 : w.pipeRet = 0
  swap
  · simp [h3, CHECK, abort, Run.bind] at h
  by_cases h4 : w.forkRet = -1
  · simp [h3, h4, CHECK, abort, Run.bind] at h
  by_cases h5 : w.forkRet = 0
  · have hc := childBranch_not_ok w (w.tempDirPath ++ "/.Xauthority") ()
    cases hcb : (childBranch w (w.tempDirPath ++ "/.Xauthority")).result with
    | ok u => exact absurd hcb hc
    | fatal => simp [h3, h4, h5, CHECK, abort, Run.bind, hcb, pure_def] at h
    | blocked => simp [h3, h4, h5, CHECK, abort, Run.bind, hcb, pure_def] at h
    | execed => simp [h3, h4, h5, CHECK, abort, Run.bind, hcb, pure_def] at h
  by_cases h6 : w.closeWriteRet = 0
  swap
  · simp [h3, h4, h5, h6, CHECK, abort, Run.bind, pure_def] at h
  cases hrl : readLoop w.readDisplayFd w.reads "" with
  | mk readLog res =>
    cases res with
    | fatal => simp [h3, h4, h5, h6, CHECK, abort, Run.bind, pure_def, hrl] at h
    | blocked => simp [h3, h4, h5, h6, CHECK, abort, Run.bind, pure_def, hrl] at h
    | execed => simp [h3, h4, h5, h6, CHECK, abort, Run.bind, pure_def, hrl] at h
    | ok displayStr =>
      by_cases h7 : w.closeReadRet = 0
      swap
      · simp [h3, h4, h5, h6, h7, CHECK, abort, Run.bind, pure_def, hrl] at h
      cases hpd : parseDisplay displayStr with
      | none => simp [h3, h4, h5, h6, h7, CHECK, abort, Run.bind, pure_def, hrl, hpd] at h
      | some display =>
        rcases addCookie_result_cases (w.tempDirPath ++ "/.Xauthority") display
          (generateCookie w.dist1) w.xauth1 with h8 | h8
        swap
        · simp [h3, h4, h5, h6, h7, CHECK, abort, Run.bind, pure_def, hrl, hpd, emit, h8] at h
        have h9 := addCookie_ok_run _ _ _ _ h8
        refine ⟨displayStr, readLog, display, rfl, hpd, h5, h4, ?_, ?_⟩
        · simp [h3, h4, h5, h6, h7, CHECK, abort, Run.bind, pure_def, hrl, hpd, emit, h9] at h
          exact h.symm
        · simp [h3, h4, h5, h6, h7, CHECK, abort, Run.bind, pure_def, hrl, hpd, emit, h9,
            entryWritten]

theorem ctor_fatal_of_read_fatal (w : CtorWorld) (hfork : w.forkRet ≠ 0)
    (hread : (readLoop w.readDisplayFd w.reads "").result = Result.fatal) :
    (Xvfb.ctor w).result = Result.fatal := by
  unfold Xvfb.ctor
  simp only [bind_def, emit_bind]
  cases h1 : w.fpGood
  · simp [CHECK, abort, Run.bind]
  simp only [check_true_bind]
  rcases addCookie_result_cases (w.tempDirPath ++ "/.Xauthority") 0 (generateCookie w.dist0)
    w.xauth0 with h2 | h2
  swap
  · rw [bind_result_fatal _ _ h2]
  rw [bind_result_ok _ _ () h2]
  by_cases h3 : w.pipeRet = 0
  swap
  · simp [h3, CHECK, abort, Run.bind]
  by_cases h4 : w.forkRet = -1
  · simp [h3, h4, CHECK, abort, Run.bind]
  by_cases h6 : w.closeWriteRet = 0
  swap
  · simp [h3, h4, hfork, h6, CHECK, abort, Run.bind, pure_def]
  simp [h3, h4, hfork, h6, CHECK, abort, Run.bind, pure_def, hread]

/-- C5: in every run of the constructor that returns an object: the steps are, in
this order, the creation of the temporary directory and of the empty authority
file, the writing of an authorization entry for display 0, pipe, fork (the
child is spawned), close of the write end, the reads of the readiness message,
close of the read end, the assignment of display_, the writing of an
authorization entry for exactly display_, and last the assignment running_ =
true; display_ is the value parseDisplay gives for the accumulated readiness
message and is >= 0.  So no object with running_ == true is returned unless the
entry for its display number has been written. -/
theorem ctor_writes_entries_in_order (w : CtorWorld) (obj : Xvfb)
    (h : (Xvfb.ctor w).result = Result.ok obj) :
    ∃ (displayStr : String) (readLog : List Step),
      readLoop w.readDisplayFd w.reads "" = ⟨readLog, Result.ok displayStr⟩ ∧
      (∀ s ∈ readLog, s.isRead = true) ∧
      parseDisplay displayStr = some obj.display_ ∧
      0 ≤ obj.display_ ∧
      obj.running_ = true ∧
      (Xvfb.ctor w).log =
        [Step.tempDirCreate obj.tempDir_, Step.openFile obj.xAuthPath_ true] ++
        entryWritten obj.xAuthPath_ 0 (generateCookie w.dist0) ++
        [Step.pipe 0 w.readDisplayFd w.writeDisplayFd, Step.fork obj.pid_,
         Step.close w.writeDisplayFd 0] ++
        readLog ++
        [Step.close w.readDisplayFd 0, Step.setDisplay obj.display_] ++
        entryWritten obj.xAuthPath_ obj.display_ (generateCookie w.dist1) ++
        [Step.setRunning true] := by
  obtain ⟨displayStr, readLog, display, hrl, hpd, _, _, hobj, hlog⟩ := ctor_ok_run w obj h
  subst hobj
  refine ⟨displayStr, readLog, hrl, ?_, hpd, parseDisplay_nonneg _ _ hpd, rfl, hlog⟩
  intro s hs
  have := readLoop_log_isRead w.readDisplayFd w.reads "" s
  rw [hrl] at this
  exact this hs

/-- Witness for C5: the run of the constructor in `sampleWorld` returns the object
for display 12. -/
theorem ctor_writes_entries_in_order_witness :
    (Xvfb.ctor sampleWorld).result =
      Result.ok ⟨"/tmp/t", "/tmp/t/.Xauthority", 1234, 12, true⟩ ∧
    ∃ (displayStr : String) (readLog : List Step),
      readLoop 3 sampleWorld.reads "" = ⟨readLog, Result.ok displayStr⟩ ∧
      (∀ s ∈ readLog, s.isRead = true) ∧
      parseDisplay displayStr = some 12 ∧
      (0 : Int) ≤ 12 ∧
      true = true ∧
      (Xvfb.ctor sampleWorld).log =
        [Step.tempDirCreate "/tmp/t", Step.openFile "/tmp/t/.Xauthority" true] ++
        entryWritten "/tmp/t/.Xauthority" 0 (generateCookie sampleWorld.dist0) ++
        [Step.pipe 0 3 4, Step.fork 1234, Step.close 4 0] ++
        readLog ++
        [Step.close 3 0, Step.setDisplay 12] ++
        entryWritten "/tmp/t/.Xauthority" 12 (generateCookie sampleWorld.dist1) ++
        [Step.setRunning true] :=
  ⟨by decide,
   ctor_writes_entries_in_order sampleWorld ⟨"/tmp/t", "/tmp/t/.Xauthority", 1234, 12, true⟩
     (by decide)⟩

/-- C10: for every finite sequence of read results none of which is a
zero-length read, followed by a zero-length read: if every failed read in it
has errno EINTR, the loop ends with the accumulated string equal to the
concatenation, in order, of the bytes of the successful reads; if some failed
read has another errno, the loop ends in a fatal abort, and so does every run of
the constructor in the parent process (fork did not return 0) that receives
this sequence of read results. -/
theorem readLoop_accumulates_until_eof (fd : Int) (rs : List ReadResult)
    (hfirst : ∀ r ∈ rs, r.readCount ≠ 0) :
    ((∀ e, ReadResult.error e ∈ rs → e = EINTR) →
      (readLoop fd (rs ++ [ReadResult.data ""]) "").result = Result.ok (successfulBytes rs)) ∧
    ((∃ e, ReadResult.error e ∈ rs ∧ e ≠ EINTR) →
      (readLoop fd (rs ++ [ReadResult.data ""]) "").result = Result.fatal ∧
      ∀ w : CtorWorld, w.readDisplayFd = fd → w.reads = rs ++ [ReadResult.data ""] →
        w.forkRet ≠ 0 → (Xvfb.ctor w).result = Result.fatal) := by
  constructor
  · intro hintr
    have h := readLoop_good fd rs hfirst hintr ""
    simpa using h
  · intro hbad
    have h := readLoop_bad fd rs hfirst hbad ""
    refine ⟨h, ?_⟩
    intro w hfd hreads hfork
    apply ctor_fatal_of_read_fatal w hfork
    rw [hfd, hreads]
    exact h

/-- Witness for C10: an interrupted read and two pieces of data give "12\n"; a read
that fails with errno 5 after one piece of data is fatal. -/
theorem readLoop_accumulates_until_eof_witness :
    (readLoop 3 ([ReadResult.error 4, ReadResult.data "1", ReadResult.data "2\n"] ++
      [ReadResult.data ""]) "").result = Result.ok "12\n" ∧
    (readLoop 3 ([ReadResult.data "1", ReadResult.error 5] ++
      [ReadResult.data ""]) "").result = Result.fatal :=
  ⟨(readLoop_accumulates_until_eof 3
      [ReadResult.error 4, ReadResult.data "1", ReadResult.data "2\n"] (by decide)).1
      (by intro e he; simp at he; rw [he]; rfl),
   ((readLoop_accumulates_until_eof 3 [ReadResult.data "1", ReadResult.error 5]
      (by decide)).2 ⟨5, by decide, by decide⟩).1⟩

/-! ## The lifecycle invariant -/

theorem setupEnv_ok_obj (self : Xvfb) (env : Environ) (w : SetenvWorld) (obj : Xvfb)
    (env2 : Environ) (h : (self.setupEnv env w).result = Result.ok (obj, env2)) : obj = self := by
  unfold Xvfb.setupEnv at h
  by_cases h1 : w.displayRet = 0
  · by_cases h2 : w.xauthorityRet = 0
    · simp [h1, h2, bind_def, pure_def, Run.bind, emit, CHECK, abort] at h
      exact h.1.symm
    · simp [h1, h2, bind_def, pure_def, Run.bind, emit, CHECK, abort] at h
  · simp [h1, bind_def, pure_def, Run.bind, emit, CHECK, abort] at h

theorem dtor_eq_shutdown (self : Xvfb) (w : ShutdownWorld) : self.dtor w = self.shutdown w := by
  rw [shutdown_run]
  unfold Xvfb.dtor
  cases hr : self.running_
  · simp [pure_def]
  · simp [shutdown_run, hr]

theorem after_shutdown_inv (s t : Sys) (w : ShutdownWorld)
    (hinv : (s.obj.running_ = false →
        s.os.childReaped = true ∧
        ∃ r, s.os.lastUnlink = some r ∧ (r = 0 → s.os.authFileExists = false)) ∧
      (s.obj.running_ = true → s.os.childReaped = false))
    (h : s.after (s.obj.shutdown w) = some t) :
    (t.obj.running_ = false →
        t.os.childReaped = true ∧
        ∃ r, t.os.lastUnlink = some r ∧ (r = 0 → t.os.authFileExists = false)) ∧
      (t.obj.running_ = true → t.os.childReaped = false) := by
  rw [shutdown_run] at h
  cases hr : s.obj.running_
  · simp [hr, Sys.after] at h
    subst h
    exact hinv
  · by_cases hw : w.waitpidRet = s.obj.pid_
    · simp [hr, hw, Sys.after, observe] at h
      subst h
      refine ⟨fun _ => ⟨rfl, w.unlinkRet, rfl, fun h0 => by simp [h0]⟩, fun hf => ?_⟩
      cases hf
    · simp [hr, hw, Sys.after] at h

/-- Counterexample for C7: the handle constructed in `sampleWorld` is shut down while
`unlink` fails (it returns -1).  The state reached has running_ == false, yet the
authority file has not been removed. -/
theorem running_false_file_not_removed :
    Reachable ⟨⟨"/tmp/t", "/tmp/t/.Xauthority", 1234, 12, false⟩, ⟨true, true, some (-1)⟩⟩ ∧
    (⟨⟨"/tmp/t", "/tmp/t/.Xauthority", 1234, 12, false⟩, ⟨true, true, some (-1)⟩⟩ : Sys).obj.running_
      = false ∧
    (⟨⟨"/tmp/t", "/tmp/t/.Xauthority", 1234, 12, false⟩, ⟨true, true, some (-1)⟩⟩ : Sys).os.authFileExists
      = true ∧
    ¬ (∀ s : Sys, Reachable s →
        (s.obj.running_ = false → s.os.authFileExists = false ∧ s.os.childReaped = true) ∧
        (s.obj.running_ = true → s.os.childReaped = false)) := by
  have hreach : Reachable
      ⟨⟨"/tmp/t", "/tmp/t/.Xauthority", 1234, 12, false⟩, ⟨true, true, some (-1)⟩⟩ :=
    Reachable.shutdown ⟨⟨"/tmp/t", "/tmp/t/.Xauthority", 1234, 12, true⟩, ⟨false, true, none⟩⟩ _
      ⟨0, 1234, -1⟩
      (Reachable.constructed sampleWorld ⟨"/tmp/t", "/tmp/t/.Xauthority", 1234, 12, true⟩
        (by decide))
      (by decide)
  refine ⟨hreach, rfl, rfl, ?_⟩
  intro hall
  have h := (hall _ hreach).1 rfl
  exact absurd h.1 (by decide)

/-- C7 (amended): in every state reachable from a successfully constructed handle
by calls of setupEnv and shutdown and by running the destructor, running_ ==
false implies that the child has been waited for (reaped) and that unlink has
been called on the authority file, the file being removed whenever that call
returned 0; and running_ == true implies that the child has not been reaped. -/
theorem lifecycle_invariant (s : Sys) (hs : Reachable s) :
    (s.obj.running_ = false →
        s.os.childReaped = true ∧
        ∃ r, s.os.lastUnlink = some r ∧ (r = 0 → s.os.authFileExists = false)) ∧
    (s.obj.running_ = true → s.os.childReaped = false) := by
  induction hs with
  | constructed w obj h =>
    obtain ⟨_, _, display, _, _, _, _, hobj, _⟩ := ctor_ok_run w obj h
    subst hobj
    simp
  | setupEnv s env w obj env2 _ h ih =>
    have hobj := setupEnv_ok_obj s.obj env w obj env2 h
    subst hobj
    exact ih
  | shutdown s t w _ h ih => exact after_shutdown_inv s t w ih h
  | dtor s t w _ h ih =>
    rw [dtor_eq_shutdown] at h
    exact after_shutdown_inv s t w ih h

/-- Witness for C7 (amended): the handle constructed in `sampleWorld`, shut down with
a successful unlink and then destroyed. -/
theorem lifecycle_invariant_witness :
    ((⟨⟨"/tmp/t", "/tmp/t/.Xauthority", 1234, 12, false⟩, ⟨true, false, some 0⟩⟩ : Sys).obj.running_
        = false →
      (⟨⟨"/tmp/t", "/tmp/t/.Xauthority", 1234, 12, false⟩, ⟨true, false, some 0⟩⟩ : Sys).os.childReaped
        = true ∧
      ∃ r, (⟨⟨"/tmp/t", "/tmp/t/.Xauthority", 1234, 12, false⟩, ⟨true, false, some 0⟩⟩ :
          Sys).os.lastUnlink = some r ∧
        (r = 0 → (⟨⟨"/tmp/t", "/tmp/t/.Xauthority", 1234, 12, false⟩, ⟨true, false, some 0⟩⟩ :
          Sys).os.authFileExists = false)) ∧
    ((⟨⟨"/tmp/t", "/tmp/t/.Xauthority", 1234, 12, false⟩, ⟨true, false, some 0⟩⟩ : Sys).obj.running_
        = true →
      (⟨⟨"/tmp/t", "/tmp/t/.Xauthority", 1234, 12, false⟩, ⟨true, false, some 0⟩⟩ : Sys).os.childReaped
        = false) :=
  lifecycle_invariant ⟨⟨"/tmp/t", "/tmp/t/.Xauthority", 1234, 12, false⟩, ⟨true, false, some 0⟩⟩
    (Reachable.dtor ⟨⟨"/tmp/t", "/tmp/t/.Xauthority", 1234, 12, false⟩, ⟨true, false, some 0⟩⟩ _
      ⟨0, 1234, 0⟩
      (Reachable.shutdown ⟨⟨"/tmp/t", "/tmp/t/.Xauthority", 1234, 12, true⟩, ⟨false, true, none⟩⟩ _
        ⟨-1, 1234, 0⟩
        (Reachable.constructed sampleWorld ⟨"/tmp/t", "/tmp/t/.Xauthority", 1234, 12, true⟩
          (by decide))
        (by decide))
      (by decide))

end Browservice
